import Mathlib

/-!
Shallow embedding of the resilient text-to-speech dispatcher of `src/app.py`:
the fallback loop `text_to_speech` (lines 84-148) and the alternative attempt
plus terminal degradation `try_alternative_tts` (lines 150-190).

The network is modelled by an environment `env : String -> AttemptResult`
giving, for each model identity, the result of the HTTP POST to that model's
endpoint: either a response (status, content-type header, raw body bytes, and
the outcome of parsing the body as JSON) or a transport-level failure
(timeout, caught at line 139, or any other exception, caught at line 142).
Streamlit UI calls (`st.info`, `st.warning`, ...) are pure logging and are not
modelled; the observable behaviour kept is the returned outcome, the sequence
of providers attempted, and the writes to `generated_audio.wav`.
-/

/-- Outcome of `response.json()` on a body: the field names of the parsed JSON
object, or a parse failure (which in the source raises an exception that the
generic handler at line 142 catches). -/
inductive JsonParse where
  | ok (fields : List String)
  | fail
  deriving DecidableEq

/-- One HTTP response as the dispatcher observes it: `response.status_code`,
`response.headers.get('content-type', '')`, `response.content` (raw bytes,
modelled as a list of byte values), and the result of `response.json()`. -/
structure HttpResponse where
  status : Nat
  contentType : String
  body : List Nat
  jsonBody : JsonParse
  deriving DecidableEq

/-- A transport-level failure of one attempt: `requests.exceptions.Timeout`
(line 139) or any other exception raised by the call (line 142). -/
inductive TransportFailure where
  | timeout
  | other (summary : String)
  deriving DecidableEq

/-- Result of one provider call: an HTTP response, or a transport failure. -/
inductive AttemptResult where
  | response (r : HttpResponse)
  | failure (f : TransportFailure)
  deriving DecidableEq

/-- Reason a single attempt was abandoned and the loop moved to the next
provider; one constructor per `continue` path of the loop body. -/
inductive RetryReason where
  /-- 200, JSON content-type, parsed body has an `error` field (line 119). -/
  | providerReportedError
  /-- 200, JSON content-type, parsed body has no `error` field (the `elif`
  block at line 117 falls through and the loop advances). -/
  | ambiguousSmallPayload
  /-- 200 but the body is small and the content-type is neither audio nor
  JSON: the `if` chain at lines 104-121 falls through and the loop advances. -/
  | unrecognizedSmallBody
  /-- 200 with a JSON content-type but `response.json()` raised; caught by the
  generic handler at line 142. -/
  | bodyDecodeFailure
  /-- HTTP 404 (line 127). -/
  | modelNotFound
  /-- HTTP 503 (line 131). -/
  | modelLoading
  /-- any other status (line 135). -/
  | unexpectedStatus (s : Nat)
  /-- `requests.exceptions.Timeout` (line 139). -/
  | timeout
  /-- any other transport exception, with `str(e)` as summary (line 142). -/
  | transportError (summary : String)
  deriving DecidableEq

/-- Classified outcome of one iteration of the fallback loop body
(lines 100-144): return `True` after writing the body to the audio file,
return `False` on HTTP 401 (invalid credential), or fall through to the next
provider. -/
inductive StepResult where
  | success (bytes : List Nat)
  | fatal
  | retry (reason : RetryReason)
  deriving DecidableEq

/-- True exactly when the step lets the loop advance to the next provider. -/
def StepResult.isRetry : StepResult → Bool
  | .retry _ => true
  | _ => false

/-- True exactly when the step returns audio. -/
def StepResult.isSuccess : StepResult → Bool
  | .success _ => true
  | _ => false

/-- Does the character list begin with the given needle? -/
def charsStart : List Char → List Char → Bool
  | [], _ => true
  | _ :: _, [] => false
  | n :: ns, h :: hs => n == h && charsStart ns hs

/-- Does the needle occur contiguously inside the haystack? -/
def charsSub : List Char → List Char → Bool
  | needle, [] => needle.isEmpty
  | needle, h :: hs => charsStart needle (h :: hs) || charsSub needle hs

/-- Python's substring test `needle in hay` on strings. -/
def strContains (hay needle : String) : Bool :=
  charsSub needle.data hay.data

/-- Classification of one HTTP response, transcribing the `if` chain at
lines 104-137 of `text_to_speech` in source order: 200 with audio
content-type or body over 1000 bytes is success; 200 with JSON content-type
is a provider-reported or ambiguous error; 401 aborts; 404, 503 and all
other statuses advance the loop. -/
def classifyResponse (r : HttpResponse) : StepResult :=
  if r.status = 200 then
    if strContains r.contentType "audio" = true ∨ 1000 < r.body.length then
      .success r.body
    else if strContains r.contentType "application/json" = true then
      match r.jsonBody with
      | .ok fields =>
          if fields.contains "error" then .retry .providerReportedError
          else .retry .ambiguousSmallPayload
      | .fail => .retry .bodyDecodeFailure
    else .retry .unrecognizedSmallBody
  else if r.status = 401 then .fatal
  else if r.status = 404 then .retry .modelNotFound
  else if r.status = 503 then .retry .modelLoading
  else .retry (.unexpectedStatus r.status)

/-- Classification of one attempt, including the two exception handlers at
lines 139-144: every transport failure becomes a retry outcome, so nothing
raises past the loop body. -/
def step : AttemptResult → StepResult
  | .response r => classifyResponse r
  | .failure .timeout => .retry .timeout
  | .failure (.other s) => .retry (.transportError s)

/-- The hard-coded provider registry `tts_models` (lines 88-93), in priority
order. -/
def tts_models : List String :=
  ["microsoft/speecht5_tts",
   "facebook/mms-tts-eng",
   "suno/bark-small",
   "espnet/kan-bayashi_ljspeech_vits"]

/-- The model used by the alternative attempt (line 154). -/
def altModel : String := "facebook/fastspeech2-en-ljspeech"

/-- The fixed list of suggested external TTS services shown by the terminal
degradation step (lines 182-188). -/
def suggestedServices : List (String × String) :=
  [("Google Text-to-Speech", "https://cloud.google.com/text-to-speech"),
   ("Amazon Polly", "https://aws.amazon.com/polly/"),
   ("Natural Readers", "https://www.naturalreaders.com/"),
   ("TTSMaker", "https://ttsmaker.com/")]

/-- The degraded terminal result: the story text surfaced verbatim in the
text area (line 180) together with the fixed service list. -/
structure DegradedResult where
  originalText : String
  suggestedExternalServices : List (String × String)
  deriving DecidableEq

/-- Terminal degradation step (lines 178-190): pure assembly of the original
message with the fixed service list; it takes no environment, so it makes no
network call and is total. -/
def present (message : String) : DegradedResult :=
  { originalText := message, suggestedExternalServices := suggestedServices }

/-- What the caller of the dispatcher observes: audio written and tagged with
the succeeding model identity, the invalid-credential abort of line 123-125,
or the degraded text-only result. -/
inductive FinalOutcome where
  | success (providerIdentity : String) (audioBytes : List Nat)
  | fatal
  | degraded (result : DegradedResult)
  deriving DecidableEq

/-- Species of a final outcome. -/
inductive OutcomeKind where
  | success
  | fatal
  | degraded
  deriving DecidableEq

/-- Species of a final outcome. -/
def FinalOutcome.kind : FinalOutcome → OutcomeKind
  | .success _ _ => .success
  | .fatal => .fatal
  | .degraded _ => .degraded

/-- How the main fallback loop (lines 95-144) exits: early with audio or a
401 abort, or by exhausting the model list. -/
inductive ChainExit where
  | success (identity : String) (bytes : List Nat)
  | fatal
  | exhausted
  deriving DecidableEq

/-- The main fallback loop over a model list: classify each attempt in order,
stop at the first success (returning its body) or 401, otherwise advance.
Returns the exit together with the identities attempted, in order. -/
def runChain (env : String → AttemptResult) : List String → ChainExit × List String
  | [] => (.exhausted, [])
  | m :: rest =>
    match step (env m) with
    | .success bytes => (.success m bytes, [m])
    | .fatal => (.fatal, [m])
    | .retry _ =>
      let r := runChain env rest
      (r.1, m :: r.2)

/-- The alternative attempt and terminal fallback (`try_alternative_tts`,
lines 150-190): one more call, judged success only when the status is 200 and
the body exceeds 1000 bytes (line 169, no content-type check and no 401
handling); on anything else, including transport failures, the degraded
result. Returns the outcome and the list of audio-file writes. -/
def try_alternative_tts (a : AttemptResult) (message : String) :
    FinalOutcome × List (List Nat) :=
  match a with
  | .response r =>
    if r.status = 200 ∧ 1000 < r.body.length then
      (.success altModel r.body, [r.body])
    else (.degraded (present message), [])
  | .failure _ => (.degraded (present message), [])

/-- Everything observable about one dispatcher invocation: the outcome, the
model identities attempted in order (the alternative model included when its
call was made), and the byte payloads written to `generated_audio.wav`. -/
structure SynthesisResult where
  outcome : FinalOutcome
  attempted : List String
  fileWrites : List (List Nat)
  deriving DecidableEq

/-- The dispatcher generalized over the registry: run the fallback loop and,
on exhaustion only, hand over to the alternative attempt (line 148). -/
def synthesizeWith (models : List String) (env : String → AttemptResult)
    (message : String) : SynthesisResult :=
  match runChain env models with
  | (.success m bytes, att) =>
    { outcome := .success m bytes, attempted := att, fileWrites := [bytes] }
  | (.fatal, att) =>
    { outcome := .fatal, attempted := att, fileWrites := [] }
  | (.exhausted, att) =>
    let alt := try_alternative_tts (env altModel) message
    { outcome := alt.1, attempted := att ++ [altModel], fileWrites := alt.2 }

/-- `text_to_speech` (lines 84-148) with its hard-coded registry. -/
def text_to_speech (env : String → AttemptResult) (message : String) :
    SynthesisResult :=
  synthesizeWith tts_models env message

/-- Does the attempt consist of an HTTP 503 response? -/
def returns503 : AttemptResult → Bool
  | .response r => r.status == 503
  | .failure _ => false

/-- Does the attempt consist of an HTTP 404 or 503 response? -/
def returns404or503 : AttemptResult → Bool
  | .response r => r.status == 404 || r.status == 503
  | .failure _ => false

/-- When a step retries, the loop advances: the chain result on `m :: rest`
is the chain result on `rest` with `m` recorded as attempted. -/
theorem runChain_cons_retry (env : String → AttemptResult) (m : String)
    (rest : List String) (h : (step (env m)).isRetry = true) :
    runChain env (m :: rest) =
      ((runChain env rest).1, m :: (runChain env rest).2) := by
  cases hs : step (env m) with
  | success bytes => rw [hs] at h; simp [StepResult.isRetry] at h
  | fatal => rw [hs] at h; simp [StepResult.isRetry] at h
  | retry reason => simp [runChain, hs]

/-- If every provider of the list yields a retry step, the chain exhausts,
having attempted the whole list in order. -/
theorem runChain_exhaust (env : String → AttemptResult) (l : List String)
    (h : ∀ m ∈ l, (step (env m)).isRetry = true) :
    runChain env l = (.exhausted, l) := by
  induction l with
  | nil => rfl
  | cons m rest ih =>
    rw [runChain_cons_retry env m rest (h m (by simp))]
    rw [ih (fun x hx => h x (by simp [hx]))]

/-- If the providers before position `k` all yield retry steps and the
provider at `k` yields success, the chain stops at `k` with its payload,
having attempted exactly positions `0..k`. -/
theorem runChain_at_success (env : String → AttemptResult) (l : List String) :
    ∀ (k : Nat) (hk : k < l.length),
      (∀ m ∈ l.take k, (step (env m)).isRetry = true) →
      ∀ bytes, step (env (l.get ⟨k, hk⟩)) = .success bytes →
      runChain env l = (.success (l.get ⟨k, hk⟩) bytes, l.take (k + 1)) := by
  induction l with
  | nil => intro k hk; simp at hk
  | cons m rest ih =>
    intro k hk hpre bytes hs
    cases k with
    | zero =>
      simp only [List.get] at hs
      simp [runChain, hs]
    | succ k =>
      have hm : (step (env m)).isRetry = true := hpre m (by simp)
      have hk' : k < rest.length := by simpa using hk
      have hpre' : ∀ x ∈ rest.take k, (step (env x)).isRetry = true := by
        intro x hx
        exact hpre x (by simp [List.take_succ_cons, hx])
      have hs' : step (env (rest.get ⟨k, hk'⟩)) = .success bytes := by
        simpa using hs
      rw [runChain_cons_retry env m rest hm,
        ih k hk' hpre' bytes hs']
      simp [List.take_succ_cons]

/-- If the providers before position `k` all yield retry steps and the
provider at `k` yields the fatal step, the chain aborts at `k`, having
attempted exactly positions `0..k`. -/
theorem runChain_at_fatal (env : String → AttemptResult) (l : List String) :
    ∀ (k : Nat) (hk : k < l.length),
      (∀ m ∈ l.take k, (step (env m)).isRetry = true) →
      step (env (l.get ⟨k, hk⟩)) = .fatal →
      runChain env l = (.fatal, l.take (k + 1)) := by
  induction l with
  | nil => intro k hk; simp at hk
  | cons m rest ih =>
    intro k hk hpre hs
    cases k with
    | zero =>
      simp only [List.get] at hs
      simp [runChain, hs]
    | succ k =>
      have hm : (step (env m)).isRetry = true := hpre m (by simp)
      have hk' : k < rest.length := by simpa using hk
      have hpre' : ∀ x ∈ rest.take k, (step (env x)).isRetry = true := by
        intro x hx
        exact hpre x (by simp [List.take_succ_cons, hx])
      have hs' : step (env (rest.get ⟨k, hk'⟩)) = .fatal := by
        simpa using hs
      rw [runChain_cons_retry env m rest hm, ih k hk' hpre' hs']
      simp [List.take_succ_cons]

/-- The chain consults only the providers of its list: two environments that
agree on the list produce identical chain results. -/
theorem runChain_congr (env₁ env₂ : String → AttemptResult) (l : List String)
    (h : ∀ m ∈ l, env₁ m = env₂ m) : runChain env₁ l = runChain env₂ l := by
  induction l with
  | nil => rfl
  | cons m rest ih =>
    have hm := h m (by simp)
    have ih' := ih (fun x hx => h x (by simp [hx]))
    simp [runChain, hm, ih']

/-- A success classification only arises from a response, and its payload is
that response's raw body. -/
theorem classifyResponse_success_inv (r : HttpResponse) (bytes : List Nat)
    (h : classifyResponse r = .success bytes) : bytes = r.body := by
  unfold classifyResponse at h
  repeat' split at h
  all_goals simp_all

/-- A success step only arises from a response, with the response's raw body
as payload. -/
theorem step_success_inv (a : AttemptResult) (bytes : List Nat)
    (h : step a = .success bytes) :
    ∃ r, a = .response r ∧ bytes = r.body := by
  cases a with
  | response r =>
    simp only [step] at h
    exact ⟨r, rfl, classifyResponse_success_inv r bytes h⟩
  | failure f => cases f <;> simp [step] at h

/-- A successful chain exit names a provider whose response supplied exactly
the returned bytes. -/
theorem runChain_success_inv (env : String → AttemptResult) (l : List String) :
    ∀ idt bytes, (runChain env l).1 = .success idt bytes →
      ∃ r, env idt = .response r ∧ bytes = r.body := by
  induction l with
  | nil => intro idt bytes h; simp [runChain] at h
  | cons m rest ih =>
    intro idt bytes h
    cases hs : step (env m) with
    | success b =>
      simp [runChain, hs] at h
      obtain ⟨rfl, rfl⟩ := h
      exact step_success_inv _ _ hs
    | fatal => simp [runChain, hs] at h
    | retry reason =>
      simp [runChain, hs] at h
      exact ih idt bytes h

/-- An HTTP 404 or 503 response classifies as a retry step. -/
theorem isRetry_of_returns404or503 (a : AttemptResult)
    (h : returns404or503 a = true) : (step a).isRetry = true := by
  cases a with
  | response r =>
    simp [returns404or503] at h
    rcases h with h | h <;>
      simp [step, classifyResponse, h, StepResult.isRetry]
  | failure f => simp [returns404or503] at h

/-- An HTTP 503 response classifies as a retry step. -/
theorem isRetry_of_returns503 (a : AttemptResult)
    (h : returns503 a = true) : (step a).isRetry = true := by
  cases a with
  | response r =>
    simp [returns503] at h
    simp [step, classifyResponse, h, StepResult.isRetry]
  | failure f => simp [returns503] at h

/-- C1: for every request and every position `k` of a 401-returning provider
in the fallback chain (the providers before it yielding retry steps, so that
the 401 provider is reached), `text_to_speech` returns the fatal
invalid-credential outcome, attempts exactly providers `0..k`, and never
makes the alternative/terminal attempt: the whole chain is aborted. -/
theorem c1_http401_aborts_whole_chain (env : String → AttemptResult)
    (msg : String) (k : Nat) (hk : k < tts_models.length) (r : HttpResponse)
    (hpre : ∀ m ∈ tts_models.take k, (step (env m)).isRetry = true)
    (h401 : env (tts_models.get ⟨k, hk⟩) = .response r)
    (hs : r.status = 401) :
    (text_to_speech env msg).outcome = .fatal ∧
    (text_to_speech env msg).attempted = tts_models.take (k + 1) ∧
    altModel ∉ (text_to_speech env msg).attempted := by
  have hstep : step (env (tts_models.get ⟨k, hk⟩)) = .fatal := by
    rw [h401]
    simp [step, classifyResponse, hs]
  have hrc := runChain_at_fatal env tts_models k hk hpre hstep
  have hres : text_to_speech env msg =
      ⟨.fatal, tts_models.take (k + 1), []⟩ := by
    unfold text_to_speech synthesizeWith
    rw [hrc]
  refine ⟨by rw [hres], by rw [hres], ?_⟩
  rw [hres]
  intro hmem
  have hin : altModel ∈ tts_models := List.take_subset _ _ hmem
  simp [tts_models, altModel] at hin

/-- Environment for the C1 witness: the first registry model answers 503,
every other model answers 401. -/
def envC1 : String → AttemptResult := fun m =>
  if m = "microsoft/speecht5_tts" then .response ⟨503, "", [], .fail⟩
  else .response ⟨401, "", [], .fail⟩

/-- Witness for C1 at position 1 of the registry. -/
theorem c1_witness :
    ((1 : Nat) < tts_models.length ∧
      (∀ m ∈ tts_models.take 1, (step (envC1 m)).isRetry = true) ∧
      envC1 (tts_models.get ⟨1, by decide⟩) = .response ⟨401, "", [], .fail⟩ ∧
      (401 : Nat) = 401) ∧
    ((text_to_speech envC1 "tale").outcome = .fatal ∧
      (text_to_speech envC1 "tale").attempted = tts_models.take 2 ∧
      altModel ∉ (text_to_speech envC1 "tale").attempted) :=
  ⟨⟨by decide, by decide, by decide, rfl⟩,
    c1_http401_aborts_whole_chain envC1 "tale" 1 (by decide)
      ⟨401, "", [], .fail⟩ (by decide) (by decide) rfl⟩

/-- C2: if the providers before position `k` answer HTTP 503 and provider `k`
answers HTTP 200 with an audio content-type or a body over 1000 bytes,
`text_to_speech` succeeds with provider `k`'s identity and raw body, having
attempted exactly providers `0..k` in registry priority order. -/
theorem c2_first_success_after_503s (env : String → AttemptResult)
    (msg : String) (k : Nat) (hk : k < tts_models.length) (r : HttpResponse)
    (hpre : ∀ m ∈ tts_models.take k, returns503 (env m) = true)
    (henv : env (tts_models.get ⟨k, hk⟩) = .response r)
    (hst : r.status = 200)
    (hbin : strContains r.contentType "audio" = true ∨ 1000 < r.body.length) :
    (text_to_speech env msg).outcome =
      .success (tts_models.get ⟨k, hk⟩) r.body ∧
    (text_to_speech env msg).attempted = tts_models.take (k + 1) := by
  have hstep : step (env (tts_models.get ⟨k, hk⟩)) = .success r.body := by
    rw [henv]
    rcases hbin with hb | hb <;> simp [step, classifyResponse, hst, hb]
  have hpre' : ∀ m ∈ tts_models.take k, (step (env m)).isRetry = true :=
    fun m hm => isRetry_of_returns503 (env m) (hpre m hm)
  have hrc := runChain_at_success env tts_models k hk hpre' r.body hstep
  have hres : text_to_speech env msg =
      ⟨.success (tts_models.get ⟨k, hk⟩) r.body,
        tts_models.take (k + 1), [r.body]⟩ := by
    unfold text_to_speech synthesizeWith
    rw [hrc]
  exact ⟨by rw [hres], by rw [hres]⟩

/-- Environment for the C2 witness: the first registry model answers 503,
every other model answers 200 with an audio content-type. -/
def envC2 : String → AttemptResult := fun m =>
  if m = "microsoft/speecht5_tts" then .response ⟨503, "", [], .fail⟩
  else .response ⟨200, "audio/flac", [7, 7, 7], .fail⟩

/-- Witness for C2 at position 1 of the registry. -/
theorem c2_witness :
    ((1 : Nat) < tts_models.length ∧
      (∀ m ∈ tts_models.take 1, returns503 (envC2 m) = true) ∧
      envC2 (tts_models.get ⟨1, by decide⟩) =
        .response ⟨200, "audio/flac", [7, 7, 7], .fail⟩ ∧
      strContains "audio/flac" "audio" = true) ∧
    ((text_to_speech envC2 "fable").outcome =
        .success (tts_models.get ⟨1, by decide⟩) [7, 7, 7] ∧
      (text_to_speech envC2 "fable").attempted = tts_models.take 2) :=
  ⟨⟨by decide, by decide, by decide, by decide⟩,
    c2_first_success_after_503s envC2 "fable" 1 (by decide)
      ⟨200, "audio/flac", [7, 7, 7], .fail⟩ (by decide) (by decide) rfl
      (Or.inl (by decide))⟩

/-- C3: when every registry provider and the alternative provider answer
HTTP 404 or 503, `text_to_speech` returns the degraded result whose original
text is exactly the input message, unmutated. -/
theorem c3_exhaustion_preserves_text (env : String → AttemptResult)
    (msg : String)
    (hall : ∀ m ∈ tts_models, returns404or503 (env m) = true)
    (halt : returns404or503 (env altModel) = true) :
    (text_to_speech env msg).outcome = .degraded (present msg) ∧
    (present msg).originalText = msg := by
  have hex := runChain_exhaust env tts_models
    (fun m hm => isRetry_of_returns404or503 (env m) (hall m hm))
  have halt' : try_alternative_tts (env altModel) msg =
      (.degraded (present msg), []) := by
    cases ha : env altModel with
    | response r =>
      rw [ha] at halt
      simp [returns404or503] at halt
      have hne : ¬ (r.status = 200 ∧ 1000 < r.body.length) := by
        rcases halt with h | h <;> simp [h]
      simp [try_alternative_tts, hne]
    | failure f => simp [try_alternative_tts]
  refine ⟨?_, rfl⟩
  unfold text_to_speech synthesizeWith
  rw [hex]
  simp [halt']

/-- Environment for the C3 witness: every model answers HTTP 404. -/
def envC3 : String → AttemptResult := fun _ => .response ⟨404, "", [], .fail⟩

/-- Witness for C3. -/
theorem c3_witness :
    ((∀ m ∈ tts_models, returns404or503 (envC3 m) = true) ∧
      returns404or503 (envC3 altModel) = true) ∧
    ((text_to_speech envC3 "a fox finds a key").outcome =
        .degraded (present "a fox finds a key") ∧
      (present "a fox finds a key").originalText = "a fox finds a key") :=
  ⟨⟨by decide, by decide⟩,
    c3_exhaustion_preserves_text envC3 "a fox finds a key"
      (by decide) (by decide)⟩

/-- C4: the terminal degradation step is pure data assembly: whenever the
dispatcher returns a degraded outcome it is exactly `present` applied to the
request text, and `present` wraps the text unchanged together with the fixed
service list; `present` takes no environment, so it performs no network call
and, being a total function, cannot fail. -/
theorem c4_present_pure_assembly (models : List String)
    (env : String → AttemptResult) (msg : String) (d : DegradedResult)
    (h : (synthesizeWith models env msg).outcome = .degraded d) :
    d = present msg ∧ (present msg).originalText = msg ∧
    (present msg).suggestedExternalServices = suggestedServices := by
  refine ⟨?_, rfl, rfl⟩
  cases hrc : runChain env models with
  | mk exit att =>
    cases exit with
    | success m bytes => simp [synthesizeWith, hrc] at h
    | fatal => simp [synthesizeWith, hrc] at h
    | exhausted =>
      cases ha : env altModel with
      | response r =>
        by_cases hc : r.status = 200 ∧ 1000 < r.body.length
        · simp [synthesizeWith, hrc, try_alternative_tts, ha, hc] at h
        · simp [synthesizeWith, hrc, try_alternative_tts, ha, hc] at h
          exact h.symm
      | failure f =>
        simp [synthesizeWith, hrc, try_alternative_tts, ha] at h
        exact h.symm

/-- Environment for the C4 witness: every model answers HTTP 503. -/
def envC4 : String → AttemptResult := fun _ => .response ⟨503, "", [], .fail⟩

/-- Witness for C4. -/
theorem c4_witness :
    (synthesizeWith tts_models envC4 "tale").outcome =
      .degraded (present "tale") ∧
    (present "tale" = present "tale" ∧
      (present "tale").originalText = "tale" ∧
      (present "tale").suggestedExternalServices = suggestedServices) :=
  ⟨by decide,
    c4_present_pure_assembly tts_models envC4 "tale" (present "tale")
      (by decide)⟩

/-- Environment for the C5 counterexample: every model answers HTTP 503. -/
def envC5 : String → AttemptResult := fun _ => .response ⟨503, "", [], .fail⟩

/-- C5 counterexample: on the empty registry the dispatcher reports no
configuration error at all — it falls through to the alternative attempt
(which is made) and returns the very degraded outcome that exhaustion
produces, silently. -/
theorem c5_counterexample :
    (synthesizeWith [] envC5 "story").outcome = .degraded (present "story") ∧
    (synthesizeWith [] envC5 "story").attempted = [altModel] := by
  decide

/-- C5 amended: the shipped registry is hard-coded non-empty, and on an empty
registry the dispatcher reports no distinct configuration error: it proceeds
directly to the alternative attempt and yields either that attempt's audio or
exactly the degraded result of ordinary exhaustion. -/
theorem c5_empty_registry_degrades (env : String → AttemptResult)
    (msg : String) :
    tts_models ≠ [] ∧
    ((synthesizeWith [] env msg).outcome = .degraded (present msg) ∨
      ∃ bytes, (synthesizeWith [] env msg).outcome = .success altModel bytes) ∧
    (synthesizeWith [] env msg).attempted = [altModel] := by
  have hres : synthesizeWith [] env msg =
      ⟨(try_alternative_tts (env altModel) msg).1, [altModel],
        (try_alternative_tts (env altModel) msg).2⟩ := rfl
  refine ⟨by decide, ?_, by rw [hres]⟩
  rw [hres]
  cases ha : env altModel with
  | response r =>
    by_cases hc : r.status = 200 ∧ 1000 < r.body.length
    · exact Or.inr ⟨r.body, by simp [try_alternative_tts, hc]⟩
    · exact Or.inl (by simp [try_alternative_tts, hc])
  | failure f => exact Or.inl (by simp [try_alternative_tts])

/-- C6: a 200 response whose content-type indicates JSON (and not audio) with
body of at most 1000 bytes classifies as a retry — provider-reported when the
parsed body has an `error` field, ambiguous otherwise — and the fallback loop
advances past such a provider instead of returning success. -/
theorem c6_small_json_retryable (r : HttpResponse)
    (env : String → AttemptResult) (m : String) (rest : List String)
    (hst : r.status = 200)
    (hjson : strContains r.contentType "application/json" = true)
    (hnoaudio : strContains r.contentType "audio" = false)
    (hsize : r.body.length ≤ 1000) (henv : env m = .response r) :
    (step (.response r)).isRetry = true ∧
    (∀ fields, r.jsonBody = .ok fields →
      step (.response r) =
        .retry (if fields.contains "error" then .providerReportedError
          else .ambiguousSmallPayload)) ∧
    runChain env (m :: rest) =
      ((runChain env rest).1, m :: (runChain env rest).2) := by
  have hlt : ¬ (1000 < r.body.length) := by omega
  have hstep : step (.response r) =
      (match r.jsonBody with
       | .ok fields =>
         if fields.contains "error" then .retry .providerReportedError
         else .retry .ambiguousSmallPayload
       | .fail => .retry .bodyDecodeFailure) := by
    cases hj : r.jsonBody with
    | ok fields =>
      by_cases he : fields.contains "error" = true
      · simp [step, classifyResponse, hst, hjson, hnoaudio, hlt, hj, he]
      · simp at he
        simp [step, classifyResponse, hst, hjson, hnoaudio, hlt, hj, he]
    | fail => simp [step, classifyResponse, hst, hjson, hnoaudio, hlt, hj]
  have hretry : (step (.response r)).isRetry = true := by
    rw [hstep]
    cases r.jsonBody with
    | ok fields =>
      by_cases he : "error" ∈ fields <;> simp [he, StepResult.isRetry]
    | fail => rfl
  refine ⟨hretry, ?_, ?_⟩
  · intro fields hj
    rw [hstep, hj]
    by_cases he : "error" ∈ fields <;> simp [he]
  · exact runChain_cons_retry env m rest (by rw [henv]; exact hretry)

/-- Response for the C6 witness: 200, JSON content-type, tiny body whose JSON
object reports an error field. -/
def respC6 : HttpResponse :=
  ⟨200, "application/json", [1, 2, 3], .ok ["error"]⟩

/-- Environment for the C6 witness. -/
def envC6 : String → AttemptResult := fun _ => .response respC6

/-- Witness for C6. -/
theorem c6_witness :
    (respC6.status = 200 ∧
      strContains respC6.contentType "application/json" = true ∧
      strContains respC6.contentType "audio" = false ∧
      respC6.body.length ≤ 1000 ∧ envC6 "m" = .response respC6) ∧
    ((step (.response respC6)).isRetry = true ∧
      (∀ fields, respC6.jsonBody = .ok fields →
        step (.response respC6) =
          .retry (if fields.contains "error" then .providerReportedError
            else .ambiguousSmallPayload)) ∧
      runChain envC6 ["m"] =
        ((runChain envC6 []).1, "m" :: (runChain envC6 []).2)) :=
  ⟨⟨rfl, by decide, by decide, by decide, rfl⟩,
    c6_small_json_retryable respC6 envC6 "m" [] rfl (by decide) (by decide)
      (by decide) rfl⟩

/-- C7: with status 200 and content-type `application/json` the audio size
threshold sits at exactly 1000 bytes: a 1001-byte body classifies as success
with the raw body as payload, while a 1000-byte body does not classify as
success. -/
theorem c7_threshold_boundary (r₁ r₂ : HttpResponse)
    (h₁s : r₁.status = 200) (h₁c : r₁.contentType = "application/json")
    (h₁l : r₁.body.length = 1001)
    (h₂s : r₂.status = 200) (h₂c : r₂.contentType = "application/json")
    (h₂l : r₂.body.length = 1000) :
    step (.response r₁) = .success r₁.body ∧
    (step (.response r₂)).isSuccess = false := by
  constructor
  · have hl : (1000 : Nat) < r₁.body.length := by omega
    simp [step, classifyResponse, h₁s, hl]
  · have hlt : ¬ (1000 < r₂.body.length) := by omega
    have hna : strContains r₂.contentType "audio" = false := by
      rw [h₂c]; decide
    have hj : strContains r₂.contentType "application/json" = true := by
      rw [h₂c]; decide
    cases hjb : r₂.jsonBody with
    | ok fields =>
      by_cases he : "error" ∈ fields
      · simp [step, classifyResponse, h₂s, hlt, hna, hj, hjb, he,
          StepResult.isSuccess]
      · simp [step, classifyResponse, h₂s, hlt, hna, hj, hjb, he,
          StepResult.isSuccess]
    | fail =>
      simp [step, classifyResponse, h₂s, hlt, hna, hj, hjb,
        StepResult.isSuccess]

/-- A 1001-byte JSON-typed 200 response for the C7 witness. -/
def respC7big : HttpResponse :=
  ⟨200, "application/json", List.replicate 1001 0, .fail⟩

/-- A 1000-byte JSON-typed 200 response for the C7 witness. -/
def respC7small : HttpResponse :=
  ⟨200, "application/json", List.replicate 1000 0, .ok []⟩

/-- Witness for C7 on both sides of the threshold. -/
theorem c7_witness :
    (respC7big.status = 200 ∧ respC7big.contentType = "application/json" ∧
      respC7big.body.length = 1001 ∧
      respC7small.status = 200 ∧
      respC7small.contentType = "application/json" ∧
      respC7small.body.length = 1000) ∧
    (step (.response respC7big) = .success respC7big.body ∧
      (step (.response respC7small)).isSuccess = false) :=
  ⟨⟨rfl, rfl,
      by rw [show respC7big.body = List.replicate 1001 0 from rfl,
        List.length_replicate],
      rfl, rfl,
      by rw [show respC7small.body = List.replicate 1000 0 from rfl,
        List.length_replicate]⟩,
    c7_threshold_boundary respC7big respC7small rfl rfl
      (by rw [show respC7big.body = List.replicate 1001 0 from rfl,
        List.length_replicate])
      rfl rfl
      (by rw [show respC7small.body = List.replicate 1000 0 from rfl,
        List.length_replicate])⟩

/-- C8: the per-attempt exception handlers make the attempt boundary total: a
network timeout classifies as the timeout retry outcome, every other
transport exception as a transport-error retry carrying its summary, and on
any transport failure the fallback loop simply advances — the orchestrator
only ever sees classified outcomes. -/
theorem c8_transport_failures_classified (env : String → AttemptResult)
    (m : String) (rest : List String) (f : TransportFailure)
    (henv : env m = .failure f) :
    step (.failure .timeout) = .retry .timeout ∧
    (∀ s, step (.failure (.other s)) = .retry (.transportError s)) ∧
    (step (env m)).isRetry = true ∧
    runChain env (m :: rest) =
      ((runChain env rest).1, m :: (runChain env rest).2) := by
  have hr : (step (env m)).isRetry = true := by
    rw [henv]; cases f <;> rfl
  exact ⟨rfl, fun s => rfl, hr, runChain_cons_retry env m rest hr⟩

/-- Environment for the C8 witness: every call raises a DNS-style transport
exception. -/
def envC8 : String → AttemptResult := fun _ => .failure (.other "dns failure")

/-- Witness for C8. -/
theorem c8_witness :
    envC8 "m" = .failure (.other "dns failure") ∧
    (step (.failure .timeout) = .retry .timeout ∧
      (∀ s, step (.failure (.other s)) = .retry (.transportError s)) ∧
      (step (envC8 "m")).isRetry = true ∧
      runChain envC8 ["m"] =
        ((runChain envC8 []).1, "m" :: (runChain envC8 []).2)) :=
  ⟨rfl,
    c8_transport_failures_classified envC8 "m" [] (.other "dns failure") rfl⟩

/-- C9: determinism as a two-run property — two invocations against providers
that return identical results on the registry models and on the alternative
model produce the same final outcome kind. -/
theorem c9_deterministic_outcome_kind (env₁ env₂ : String → AttemptResult)
    (msg : String) (hmain : ∀ m ∈ tts_models, env₁ m = env₂ m)
    (halt : env₁ altModel = env₂ altModel) :
    (text_to_speech env₁ msg).outcome.kind =
      (text_to_speech env₂ msg).outcome.kind := by
  have h : text_to_speech env₁ msg = text_to_speech env₂ msg := by
    unfold text_to_speech synthesizeWith
    rw [runChain_congr env₁ env₂ tts_models hmain, halt]
  rw [h]

/-- First environment for the C9 witness: every model answers 503. -/
def envC9a : String → AttemptResult := fun _ => .response ⟨503, "", [], .fail⟩

/-- Second environment for the C9 witness: agrees with the first on the
registry and alternative models, differs on an unrelated name. -/
def envC9b : String → AttemptResult := fun m =>
  if m = "some/other-model" then .failure .timeout
  else .response ⟨503, "", [], .fail⟩

/-- Witness for C9. -/
theorem c9_witness :
    ((∀ m ∈ tts_models, envC9a m = envC9b m) ∧
      envC9a altModel = envC9b altModel) ∧
    (text_to_speech envC9a "tale").outcome.kind =
      (text_to_speech envC9b "tale").outcome.kind :=
  ⟨⟨by decide, by decide⟩,
    c9_deterministic_outcome_kind envC9a envC9b "tale" (by decide)
      (by decide)⟩

/-- C10: the audio file is written in a call exactly when that call succeeds:
a successful outcome names a provider whose raw response body is the single
write performed, and every non-success outcome (fatal 401 abort, exhaustion,
transport failures) performs no write at all. -/
theorem c10_file_write_iff_success (models : List String)
    (env : String → AttemptResult) (msg : String) :
    (∃ idt bytes,
      (synthesizeWith models env msg).outcome = .success idt bytes ∧
      (synthesizeWith models env msg).fileWrites = [bytes] ∧
      ∃ r, env idt = .response r ∧ bytes = r.body) ∨
    ((synthesizeWith models env msg).outcome.kind ≠ .success ∧
      (synthesizeWith models env msg).fileWrites = []) := by
  cases hrc : runChain env models with
  | mk exit att =>
    cases exit with
    | success idt bytes =>
      left
      refine ⟨idt, bytes, by simp [synthesizeWith, hrc],
        by simp [synthesizeWith, hrc], ?_⟩
      exact runChain_success_inv env models idt bytes (by rw [hrc])
    | fatal =>
      right
      exact ⟨by simp [synthesizeWith, hrc, FinalOutcome.kind],
        by simp [synthesizeWith, hrc]⟩
    | exhausted =>
      cases ha : env altModel with
      | response r =>
        by_cases hc : r.status = 200 ∧ 1000 < r.body.length
        · left
          exact ⟨altModel, r.body,
            by simp [synthesizeWith, hrc, try_alternative_tts, ha, hc],
            by simp [synthesizeWith, hrc, try_alternative_tts, ha, hc],
            ⟨r, ha, rfl⟩⟩
        · right
          exact ⟨by simp [synthesizeWith, hrc, try_alternative_tts, ha, hc,
              FinalOutcome.kind],
            by simp [synthesizeWith, hrc, try_alternative_tts, ha, hc]⟩
      | failure f =>
        right
        exact ⟨by simp [synthesizeWith, hrc, try_alternative_tts, ha,
            FinalOutcome.kind],
          by simp [synthesizeWith, hrc, try_alternative_tts, ha]⟩

example :
    step (.response ⟨503, "", [], .fail⟩) = .retry .modelLoading := by decide

example :
    step (.response ⟨200, "audio/wav", [1, 2], .fail⟩) = .success [1, 2] := by
  decide

example :
    (text_to_speech (fun _ => .response ⟨404, "", [], .fail⟩) "tale").outcome =
    .degraded (present "tale") := by decide
